import Mathlib

/-!
Verification development for the release-linear-ticket-update pipeline.

The Rust sources are embedded shallowly:
* `src/utils.rs` / `src/update_tickets.rs` string helpers become executable
  character-list functions (`strTrim`, `strContains`, `eqIgnoreAsciiCase`, ...);
* the `grep -oE` pattern scans used by `parse_notes.rs` and
  `extract_tickets.rs` become deterministic leftmost scanners over the input
  split into lines (the two patterns involved contain no constructs where
  POSIX longest-match and the greedy deterministic scan differ);
* the Linear GraphQL exchanges of `update_tickets.rs` are modelled by an
  abstract `Api` environment giving the (structured) response of each request,
  `none` standing for a transport-level `curl` failure, and every engine run
  also returns the list of API calls it issued;
* the process orchestration of `orchestrator.rs` is modelled by an `OrchEnv`
  environment giving the outcome of each spawn/stdout-capture/wait operation,
  and the run returns the ordered list of spawn and (successful) wait events.

Error payloads carried by `Except.error` are abbreviated to stable constant
strings where the Rust code interpolates dynamic data; the control flow is
translated branch by branch.
-/

/-- Whitespace test used to model Rust `str::trim` and `char::is_whitespace`
restricted to the ASCII range (the non-ASCII Unicode whitespace code points
play no role in any input considered here). -/
def isRustWhitespace (c : Char) : Bool :=
  c = ' ' || c = '\t' || c = '\n' || c = '\x0B' || c = '\x0C' || c = '\r'

/-- Rust `char::to_ascii_lowercase`. -/
def toAsciiLower (c : Char) : Char :=
  if 'A' ≤ c && c ≤ 'Z' then Char.ofNat (c.toNat + 32) else c

/-- Rust `u8::is_ascii_uppercase` (on characters). -/
def isAsciiUpper (c : Char) : Bool := 'A' ≤ c && c ≤ 'Z'

/-- Rust `u8::is_ascii_digit` (on characters). -/
def isAsciiDigit (c : Char) : Bool := '0' ≤ c && c ≤ '9'

/-- Rust `str::trim`: drop leading and trailing whitespace. -/
def strTrim (s : String) : String :=
  String.mk (((s.data.dropWhile isRustWhitespace).reverse.dropWhile
    isRustWhitespace).reverse)

/-- Rust `str::contains` with a literal pattern: some suffix position of `s`
starts with `pat`. -/
def strContains (s pat : String) : Bool :=
  (List.range (s.data.length + 1)).any
    (fun i => pat.data.isPrefixOf (s.data.drop i))

/-- ASCII lowercasing of a whole string. -/
def lowerStr (s : String) : String := String.mk (s.data.map toAsciiLower)

/-- Rust `str::eq_ignore_ascii_case`. -/
def eqIgnoreAsciiCase (s t : String) : Bool :=
  s.data.map toAsciiLower == t.data.map toAsciiLower

/-- Case-insensitive substring test, modelling `jq`'s `test(...; "i")` with a
literal alternative (ASCII case folding). -/
def strContainsCI (s pat : String) : Bool := strContains (lowerStr s) (lowerStr pat)

/-- Rust `str::split_once` on a single character: split at the first
occurrence, or `none` when the character does not occur. -/
def splitOnceChar (c : Char) : List Char → Option (List Char × List Char)
  | [] => none
  | x :: xs =>
    if x = c then some ([], xs)
    else
      match splitOnceChar c xs with
      | some ab => some (x :: ab.1, ab.2)
      | none => none

/-- Split a character stream into the lines `grep` processes (separator
`'\n'`; a trailing newline yields a final empty line, which matches nothing
under the patterns in use). -/
def splitOnNl : List Char → List (List Char)
  | [] => [[]]
  | c :: cs =>
    if c = '\n' then [] :: splitOnNl cs
    else
      match splitOnNl cs with
      | [] => [[c]]
      | l :: ls => (c :: l) :: ls

/-- One attempt to match `TICKET_PATTERN = [A-Z]{3}-[0-9]+`
(`extract_tickets.rs`) at the head of the character list; on success returns
the matched characters and the remainder after the match.  The pattern is
deterministic: three uppercase letters, a hyphen, then the maximal digit
run. -/
def matchTicketAt (l : List Char) : Option (List Char × List Char) :=
  match l with
  | a :: b :: c :: d :: rest =>
    if isAsciiUpper a && isAsciiUpper b && isAsciiUpper c && d = '-' then
      let ds := rest.takeWhile isAsciiDigit
      if ds.isEmpty then none
      else some ([a, b, c, '-'] ++ ds, rest.dropWhile isAsciiDigit)
    else none
  | _ => none

/-- `grep -o` scan: repeatedly find the leftmost match, emit it, and resume
right after it; on a non-match advance one character.  Structured with fuel
(initialised to the line length) so that it is structurally recursive and
fully kernel-evaluable. -/
def scanRegex (matchAt : List Char → Option (List Char × List Char)) :
    Nat → List Char → List (List Char)
  | 0, _ => []
  | _ + 1, [] => []
  | n + 1, c :: cs =>
    match matchAt (c :: cs) with
    | some mr => mr.1 :: scanRegex matchAt n mr.2
    | none => scanRegex matchAt n cs

/-- All matches of `TICKET_PATTERN` in the PR text, in discovery order:
`utils::run_grep(text, TICKET_PATTERN)` split into its output lines. -/
def ticket_matches (text : String) : List String :=
  (splitOnNl text.data).flatMap
    (fun line => (scanRegex matchTicketAt line.length line).map String.mk)

/-- The literal `https://github.com/` of the parse-notes pattern. -/
def ghUrlLit : List Char := "https://github.com/".data

/-- The literal `/pull/` of the parse-notes pattern. -/
def pullLit : List Char := "/pull/".data

/-- Match a literal character sequence at the head, returning the remainder. -/
def dropLit : List Char → List Char → Option (List Char)
  | [], l => some l
  | _ :: _, [] => none
  | p :: ps, c :: cs => if c = p then dropLit ps cs else none

/-- One attempt to match the parse-notes pattern
`(#[0-9]+|https:\/\/github\.com\/[^\/]+\/[^\/]+\/pull\/[0-9]+)` at the head of
a line.  Both alternatives are deterministic: `[^/]+` runs cannot cross the
following `/` literal, so the greedy scan coincides with POSIX matching. -/
def matchPrAt (l : List Char) : Option (List Char × List Char) :=
  match l with
  | '#' :: rest =>
    let ds := rest.takeWhile isAsciiDigit
    if ds.isEmpty then none
    else some ('#' :: ds, rest.dropWhile isAsciiDigit)
  | _ =>
    match dropLit ghUrlLit l with
    | none => none
    | some r1 =>
      let seg1 := r1.takeWhile (fun c => c ≠ '/')
      let r2 := r1.dropWhile (fun c => c ≠ '/')
      if seg1.isEmpty then none
      else
        match r2 with
        | '/' :: r3 =>
          let seg2 := r3.takeWhile (fun c => c ≠ '/')
          let r4 := r3.dropWhile (fun c => c ≠ '/')
          if seg2.isEmpty then none
          else
            match dropLit pullLit r4 with
            | none => none
            | some r5 =>
              let ds := r5.takeWhile isAsciiDigit
              if ds.isEmpty then none
              else
                some (ghUrlLit ++ seg1 ++ '/' :: seg2 ++ pullLit ++ ds,
                  r5.dropWhile isAsciiDigit)
        | _ => none

/-- All matches of the PR-reference pattern in the release notes, in
discovery order (`stream_pr_numbers_from_reader`'s `grep -oE` output). -/
def pr_matches (input : String) : List String :=
  (splitOnNl input.data).flatMap
    (fun line => (scanRegex matchPrAt line.length line).map String.mk)

/-- Rust `matched.rsplit('/').next()`: the segment after the last `/` (the
whole string when no `/` occurs). -/
def afterLastSlash (l : List Char) : List Char :=
  (l.reverse.takeWhile (fun c => c ≠ '/')).reverse

/-- Normalisation applied to one `grep` match in
`stream_pr_numbers_from_reader`: strip a leading `#`, otherwise keep what
follows the last `/` (the digits of a `/pull/<digits>` URL).  This factors the
identical emit logic of the two branches of the reader loop. -/
def normalize_pr_match (m : String) : String :=
  match m.data with
  | '#' :: rest => String.mk rest
  | _ => String.mk (afterLastSlash m.data)

/-- The dedup-and-emit loop of `stream_pr_numbers_from_reader` over the list
of grep matches, carrying the `seen` set (`HashSet` modelled as a list). -/
def parse_emit_loop (seen : List String) : List String → List String
  | [] => []
  | matched :: ms =>
    let num := normalize_pr_match matched
    if num ∈ seen then parse_emit_loop seen ms
    else num :: parse_emit_loop (num :: seen) ms

/-- The parse-notes stage on the full release-notes text: emitted PR numbers
in discovery order, deduplicated (`parse_notes.rs`, reader path). -/
def parse_notes_run (input : String) : List String :=
  parse_emit_loop [] (pr_matches input)

/-- One embedded GraphQL error object; Linear error objects carry an optional
`message` field (`.errors[]?.message` in the `jq` probe). -/
structure GraphQLError where
  message : Option String
deriving DecidableEq

/-- Structured view of the `get_issue_details` JSON response:
its embedded error list, whether `.data.issue == null`, and the extracted
`.data.issue.state.name` and `.data.issue.team.id` values (`jq -r` renders a
missing field as the string `"null"`). -/
structure IssueResponse where
  errors : List GraphQLError
  issueIsNull : Bool
  stateName : String
  teamId : String
deriving DecidableEq

/-- One workflow-state node of the `get_workflow_states` response. -/
structure StateNode where
  id : String
  name : String
deriving DecidableEq

/-- Structured view of the `get_workflow_states` JSON response. -/
structure StatesResponse where
  errors : List GraphQLError
  nodes : List StateNode
deriving DecidableEq

/-- Structured view of the `update_issue_state` mutation response;
`success` is the `jq`-extracted `.data.issueUpdate.success` text. -/
structure MutationResponse where
  errors : List GraphQLError
  success : String
deriving DecidableEq

/-- Abstract Linear API environment: the response each request would receive.
`none` models a transport-level failure (`curl` non-zero exit). -/
structure Api where
  issue : String → Option IssueResponse
  states : String → Option StatesResponse
  mutate : String → String → Option MutationResponse

/-- The state-reading and state-changing API calls the engine can issue. -/
inductive ApiCall where
  | getIssueDetails (issueId : String)
  | getWorkflowStates (teamId : String)
  | updateIssueState (issueId stateId : String)
deriving DecidableEq

/-- `issue_url` of `update_tickets.rs`. -/
def issue_url (org issueId : String) : String :=
  "https://linear.app/" ++ org ++ "/issue/" ++ issueId

/-- `state_is_done_or_completed` of `update_tickets.rs`: case-sensitive
substring search for `Done` or `Completed`. -/
def state_is_done_or_completed (stateName : String) : Bool :=
  strContains stateName "Done" || strContains stateName "Completed"

/-- `state_is_passing` of `update_tickets.rs`. -/
def state_is_passing (stateName : String) : Bool :=
  eqIgnoreAsciiCase stateName "Passing"

/-- The message texts present in the embedded error list
(`.errors[]?.message // empty`: absent messages produce no output line). -/
def graphql_error_messages (errs : List GraphQLError) : List String :=
  errs.filterMap GraphQLError.message

/-- `ensure_no_graphql_errors` of `update_tickets.rs`: `jq -r` prints each
present message followed by a newline; the caller accepts the response when
that output trims to the empty string, i.e. when every character of it is
whitespace. -/
def ensure_no_graphql_errors (errs : List GraphQLError) : Except String Unit :=
  if ((graphql_error_messages errs).flatMap (fun m => m.data ++ ['\n'])).all
      isRustWhitespace then
    Except.ok ()
  else Except.error "Linear API returned errors"

/-- The state-name test of `find_completed_state`'s `jq` filter:
`test("completed|done"; "i")`. -/
def nameMatchesCompletedOrDone (name : String) : Bool :=
  strContainsCI name "completed" || strContainsCI name "done"

/-- `find_completed_state` of `update_tickets.rs`: the id of the first node
whose name matches, erroring when there is none or when its id renders empty
or `null` (state ids are modelled as single-line strings, so taking the
first output line is the identity). -/
def find_completed_state (resp : StatesResponse) : Except String String :=
  match resp.nodes.find? (fun n => nameMatchesCompletedOrDone n.name) with
  | none => Except.error "Could not find a Completed or Done state"
  | some n =>
    if (strTrim n.id).data.isEmpty || strTrim n.id == "null" then
      Except.error "Could not find a Completed or Done state"
    else Except.ok (strTrim n.id)

/-- `update_single_ticket` of `update_tickets.rs`, branch by branch, over the
abstract `Api`; the second component lists the API calls issued (in order).
The `update_issue_state` helper's internal `success == "true"` check happens
before the caller's `ensure_no_graphql_errors` on the mutation response,
exactly as in the source. -/
def update_single_ticket (api : Api) (issueId org : String)
    (dryRun updateAllStatuses : Bool) :
    Except String (Option String) × List ApiCall :=
  let url := issue_url org issueId
  let calls1 := [ApiCall.getIssueDetails issueId]
  match api.issue issueId with
  | none => (Except.error "curl request failed", calls1)
  | some issueDetails =>
    match ensure_no_graphql_errors issueDetails.errors with
    | Except.error e => (Except.error e, calls1)
    | Except.ok _ =>
      if issueDetails.issueIsNull then (Except.error "Issue not found", calls1)
      else
        let currentStateName := issueDetails.stateName
        let isCompleted := state_is_done_or_completed currentStateName
        let isPassing := state_is_passing currentStateName
        let shouldUpdate := !isCompleted && (updateAllStatuses || isPassing)
        if dryRun then
          if shouldUpdate then (Except.ok (some url), calls1)
          else (Except.ok none, calls1)
        else if isCompleted then (Except.ok (some url), calls1)
        else if !shouldUpdate then (Except.ok none, calls1)
        else
          let teamId := issueDetails.teamId
          if teamId == "null" || teamId.data.isEmpty then
            (Except.error "Could not find team ID", calls1)
          else
            let calls2 := calls1 ++ [ApiCall.getWorkflowStates teamId]
            match api.states teamId with
            | none => (Except.error "curl request failed", calls2)
            | some workflowStates =>
              match ensure_no_graphql_errors workflowStates.errors with
              | Except.error e => (Except.error e, calls2)
              | Except.ok _ =>
                match find_completed_state workflowStates with
                | Except.error e => (Except.error e, calls2)
                | Except.ok completedStateId =>
                  let calls3 := calls2 ++
                    [ApiCall.updateIssueState issueId completedStateId]
                  match api.mutate issueId completedStateId with
                  | none => (Except.error "curl request failed", calls3)
                  | some updateResponse =>
                    if updateResponse.success == "true" then
                      match ensure_no_graphql_errors updateResponse.errors with
                      | Except.error e => (Except.error e, calls3)
                      | Except.ok _ => (Except.ok (some url), calls3)
                    else (Except.error "Update failed", calls3)

/-- `is_valid_ticket_id` of `update_tickets.rs`: split at the first hyphen;
the part before must be exactly three ASCII uppercase letters and the part
after a non-empty digit run. -/
def is_valid_ticket_id (input : String) : Bool :=
  match splitOnceChar '-' input.data with
  | none => false
  | some pd =>
    pd.1.length == 3 && pd.1.all isAsciiUpper && !pd.2.isEmpty &&
      pd.2.all isAsciiDigit

/-- `parse_issue_id` of `update_tickets.rs`. -/
def parse_issue_id (input : String) : Except String String :=
  let trimmed := strTrim input
  if trimmed.data.isEmpty then Except.error "Empty ticket ID"
  else if !is_valid_ticket_id trimmed then
    Except.error "Expected ticket ID like ABC-123"
  else Except.ok trimmed

/-- The per-line loop of `update_tickets::run`, returning the stdout lines
(success URLs) in emission order.  Blank lines, invalid ticket ids and failed
per-ticket updates are skipped (the latter two are logged to stderr, which is
not part of the stdout stream modelled here); input-source I/O failures are
outside this model. -/
def update_tickets_run (api : Api) (org : String)
    (dryRun updateAllStatuses : Bool) : List String → List String
  | [] => []
  | line :: rest =>
    let inputLine := strTrim line
    if inputLine.data.isEmpty then
      update_tickets_run api org dryRun updateAllStatuses rest
    else
      match parse_issue_id inputLine with
      | Except.error _ => update_tickets_run api org dryRun updateAllStatuses rest
      | Except.ok issueId =>
        match (update_single_ticket api issueId org dryRun updateAllStatuses).1 with
        | Except.ok (some successUrl) =>
          successUrl :: update_tickets_run api org dryRun updateAllStatuses rest
        | Except.ok none => update_tickets_run api org dryRun updateAllStatuses rest
        | Except.error _ => update_tickets_run api org dryRun updateAllStatuses rest

/-- The trimmed, non-empty `grep` matches of `TICKET_PATTERN` in one PR's
text, as iterated by `find_and_output_tickets`. -/
def ticketIdsOf (text : String) : List String :=
  (ticket_matches text).filterMap
    (fun id => if (strTrim id).data.isEmpty then none else some (strTrim id))

/-- The emit loop shared by `find_and_output_tickets`: output each value not
yet in the seen set and record it, returning the emitted values and the
updated seen set. -/
def emitNew : List String → List String → List String × List String
  | [], seen => ([], seen)
  | m :: ms, seen =>
    if m ∈ seen then emitNew ms seen
    else
      let p := emitNew ms (m :: seen)
      (m :: p.1, p.2)

/-- `find_and_output_tickets` of `extract_tickets.rs`. -/
def find_and_output_tickets (text : String) (seen : List String) :
    List String × List String :=
  emitNew (ticketIdsOf text) seen

/-- The per-line loop of `extract_tickets::run` over an abstract
`get_pr_text` collaborator: blank lines are skipped, a failed text fetch for
a PR aborts the whole stage with that error (the `?` on `get_pr_text`), and
discovered ticket ids are emitted immediately, deduplicated across lines. -/
def extract_tickets_run (prText : String → Except String String) :
    List String → List String → Except String Unit × List String
  | [], _ => (Except.ok (), [])
  | line :: rest, seen =>
    let prNum := strTrim line
    if prNum.data.isEmpty then extract_tickets_run prText rest seen
    else
      match prText prNum with
      | Except.error e => (Except.error e, [])
      | Except.ok text =>
        let p := find_and_output_tickets text seen
        let q := extract_tickets_run prText rest p.2
        (q.1, p.1 ++ q.2)

/-- The three pipeline stages, in spawn order. -/
inductive Stage where
  | parseNotes
  | extractTickets
  | updateTickets
deriving DecidableEq

/-- Observable orchestration events: a stage process was spawned, or a wait
on it returned an exit status. -/
inductive OrchEvent where
  | spawned (s : Stage)
  | waited (s : Stage)
deriving DecidableEq

/-- Abstract environment for `orchestrator::run`: the resolved configuration
and the outcome of each process operation.  `waitResult s = none` models the
`wait()` call itself failing (an I/O error), `some b` an exit status with
success flag `b`. -/
structure OrchEnv where
  releaseTag : Option String
  linearApiKey : Option String
  linearOrg : Option String
  exeOk : Bool
  spawnOk : Stage → Bool
  stdoutOk : Stage → Bool
  waitResult : Stage → Option Bool

/-- `orchestrator::run` of `orchestrator.rs`, branch by branch: validate the
configuration, spawn parse-notes / extract-tickets / update-tickets in order
(failing fast on a spawn or stdout-capture failure), then wait on
update-tickets, extract-tickets and parse-notes in that order — each `wait`
early-returning on an I/O error — and finally fail unless all three exit
statuses are successful. -/
def orchestrator_run (env : OrchEnv) : Except String Unit × List OrchEvent :=
  match env.releaseTag with
  | none => (Except.error "Orchestrator mode requires the release-tag flag", [])
  | some _ =>
    match env.linearApiKey with
    | none => (Except.error "LINEAR_API_KEY not provided", [])
    | some _ =>
      match env.linearOrg with
      | none => (Except.error "LINEAR_ORG not provided", [])
      | some _ =>
        if !env.exeOk then
          (Except.error "Failed to get current executable path", [])
        else if !env.spawnOk Stage.parseNotes then
          (Except.error "Failed to spawn parse-notes", [])
        else
          let ev1 := [OrchEvent.spawned Stage.parseNotes]
          if !env.stdoutOk Stage.parseNotes then
            (Except.error "Failed to capture parse-notes stdout", ev1)
          else if !env.spawnOk Stage.extractTickets then
            (Except.error "Failed to spawn extract-tickets", ev1)
          else
            let ev2 := ev1 ++ [OrchEvent.spawned Stage.extractTickets]
            if !env.stdoutOk Stage.extractTickets then
              (Except.error "Failed to capture extract-tickets stdout", ev2)
            else if !env.spawnOk Stage.updateTickets then
              (Except.error "Failed to spawn update-tickets", ev2)
            else
              let ev3 := ev2 ++ [OrchEvent.spawned Stage.updateTickets]
              match env.waitResult Stage.updateTickets with
              | none => (Except.error "Failed to wait for update-tickets", ev3)
              | some updateStatus =>
                let ev4 := ev3 ++ [OrchEvent.waited Stage.updateTickets]
                match env.waitResult Stage.extractTickets with
                | none => (Except.error "Failed to wait for extract-tickets", ev4)
                | some extractStatus =>
                  let ev5 := ev4 ++ [OrchEvent.waited Stage.extractTickets]
                  match env.waitResult Stage.parseNotes with
                  | none => (Except.error "Failed to wait for parse-notes", ev5)
                  | some parseStatus =>
                    let ev6 := ev5 ++ [OrchEvent.waited Stage.parseNotes]
                    if !parseStatus || !extractStatus || !updateStatus then
                      (Except.error "Pipeline failed", ev6)
                    else (Except.ok (), ev6)

/-- The update decision exactly as the specification words it:
`shouldUpdate = !isCompleted && (updateAllStatuses || isPassing)` with
`isCompleted` a case-sensitive substring match for `Done` or `Completed` and
`isPassing` a case-insensitive equality with `Passing`. -/
def specShouldUpdate (stateName : String) (updateAllStatuses : Bool) : Bool :=
  !(strContains stateName "Done" || strContains stateName "Completed") &&
    (updateAllStatuses || eqIgnoreAsciiCase stateName "Passing")

/-- Proof-side view of the dedup emitter: the values emitted from a stream
given an initial seen set. -/
def dedupEmit (seen : List String) : List String → List String
  | [] => []
  | x :: xs =>
    if x ∈ seen then dedupEmit seen xs else x :: dedupEmit (x :: seen) xs

/-- Proof-side view of the seen set after consuming a stream. -/
def dedupSeen (seen : List String) : List String → List String
  | [] => seen
  | x :: xs => if x ∈ seen then dedupSeen seen xs else dedupSeen (x :: seen) xs

/-- The discovery stream of the extractor when every PR lookup succeeds: the
ticket ids of each non-blank line's PR text, concatenated in input order. -/
def extract_stream (prText : String → String) : List String → List String
  | [] => []
  | line :: rest =>
    if (strTrim line).data.isEmpty then extract_stream prText rest
    else ticketIdsOf (prText (strTrim line)) ++ extract_stream prText rest

/-- Issue response: a ticket in state `Passing`, clean payload. -/
def respPassing : IssueResponse :=
  { errors := [], issueIsNull := false, stateName := "Passing", teamId := "team1" }

/-- Issue response: a ticket in state `In Review`, clean payload. -/
def respInReview : IssueResponse :=
  { errors := [], issueIsNull := false, stateName := "In Review", teamId := "team1" }

/-- Issue response: a ticket in state `pAsSiNg` (mixed case), clean payload. -/
def respMixedCase : IssueResponse :=
  { errors := [], issueIsNull := false, stateName := "pAsSiNg", teamId := "team1" }

/-- Issue response: a ticket in state `Completed`, clean payload. -/
def respCompleted : IssueResponse :=
  { errors := [], issueIsNull := false, stateName := "Completed", teamId := "team1" }

/-- Issue response carrying a non-empty embedded error list whose only error
has an empty message. -/
def respSilentErr : IssueResponse :=
  { errors := [{ message := some "" }], issueIsNull := false,
    stateName := "Passing", teamId := "team1" }

/-- Workflow-states response with a `Done` state. -/
def wrespGood : StatesResponse :=
  { errors := [], nodes := [{ id := "state-done", name := "Done" }] }

/-- Clean successful mutation response. -/
def mrespGood : MutationResponse := { errors := [], success := "true" }

/-- Api: every ticket is in state `Passing`; all downstream calls succeed. -/
def apiPassing : Api :=
  { issue := fun _ => some respPassing, states := fun _ => some wrespGood,
    mutate := fun _ _ => some mrespGood }

/-- Api: every ticket is in state `In Review`; downstream calls succeed. -/
def apiInReview : Api :=
  { issue := fun _ => some respInReview, states := fun _ => some wrespGood,
    mutate := fun _ _ => some mrespGood }

/-- Api: every ticket is in state `pAsSiNg`; downstream calls succeed. -/
def apiMixedCase : Api :=
  { issue := fun _ => some respMixedCase, states := fun _ => some wrespGood,
    mutate := fun _ _ => some mrespGood }

/-- Api: every ticket is in state `Completed`; downstream calls succeed. -/
def apiCompleted : Api :=
  { issue := fun _ => some respCompleted, states := fun _ => some wrespGood,
    mutate := fun _ _ => some mrespGood }

/-- Api: the issue lookup answers with `respSilentErr` (non-empty error list,
empty message); downstream calls succeed. -/
def apiSilentErr : Api :=
  { issue := fun _ => some respSilentErr, states := fun _ => some wrespGood,
    mutate := fun _ _ => some mrespGood }

/-- Issue response whose error list carries the message `boom`. -/
def respBoomErr : IssueResponse :=
  { errors := [{ message := some "boom" }], issueIsNull := false,
    stateName := "Passing", teamId := "team1" }

/-- Api: the issue lookup answers with `respBoomErr`. -/
def apiBoomErr : Api :=
  { issue := fun _ => some respBoomErr, states := fun _ => some wrespGood,
    mutate := fun _ _ => some mrespGood }

/-- Api: the transport fails (curl cannot reach the API) for ticket `ABC-1`
only; every other ticket behaves like `apiPassing`. -/

def apiTransportMix : Api :=
  { issue := fun id => if id = "ABC-1" then none else some respPassing,
    states := fun _ => some wrespGood, mutate := fun _ _ => some mrespGood }

/-- PR-text collaborator: the lookup of PR `5` fails (inaccessible PR), PR
`6` yields text containing the ticket `AAA-1`. -/
def prTextC4 : String → Except String String := fun pr =>
  if pr = "5" then Except.error "Failed to get PR 5"
  else Except.ok "AAA-1 shipped"

/-- Orchestrator environment: everything resolves, spawns, and exits
successfully. -/
def envOrchGood : OrchEnv :=
  { releaseTag := some "v1.0", linearApiKey := some "key",
    linearOrg := some "org", exeOk := true, spawnOk := fun _ => true,
    stdoutOk := fun _ => true, waitResult := fun _ => some true }

/-- Orchestrator environment: everything resolves and spawns, but the wait on
update-tickets itself fails with an I/O error. -/
def envOrchWaitFail : OrchEnv :=
  { releaseTag := some "v1.0", linearApiKey := some "key",
    linearOrg := some "org", exeOk := true, spawnOk := fun _ => true,
    stdoutOk := fun _ => true,
    waitResult := fun s => if s = Stage.updateTickets then none else some true }

/-- Orchestrator environment: everything resolves and spawns, every wait
returns a status, but parse-notes exited non-zero. -/
def envOrchParseFail : OrchEnv :=
  { releaseTag := some "v1.0", linearApiKey := some "key",
    linearOrg := some "org", exeOk := true, spawnOk := fun _ => true,
    stdoutOk := fun _ => true,
    waitResult := fun s => some (s ≠ Stage.parseNotes) }

theorem mem_of_isPrefixOf :
    ∀ {p l : List Char}, p.isPrefixOf l = true → ∀ c ∈ p, c ∈ l := by
  intro p
  induction p with
  | nil => intro l _ c hc; cases hc
  | cons a as ih =>
    intro l hp c hc
    cases l with
    | nil => simp [List.isPrefixOf] at hp
    | cons b bs =>
      simp only [List.isPrefixOf, Bool.and_eq_true, beq_iff_eq] at hp
      rcases List.mem_cons.mp hc with rfl | hc
      · exact List.mem_cons.mpr (Or.inl hp.1)
      · exact List.mem_cons.mpr (Or.inr (ih hp.2 c hc))

theorem strContains_subset {s pat : String} (h : strContains s pat = true) :
    ∀ c ∈ pat.data, c ∈ s.data := by
  intro c hc
  simp only [strContains, List.any_eq_true] at h
  obtain ⟨i, _, hpre⟩ := h
  exact List.drop_subset i s.data (mem_of_isPrefixOf hpre c hc)

theorem passing_not_completed {name : String}
    (h : eqIgnoreAsciiCase name "Passing" = true) :
    state_is_done_or_completed name = false := by
  have hmap : name.data.map toAsciiLower = "Passing".data.map toAsciiLower := by
    simpa [eqIgnoreAsciiCase] using h
  rcases Bool.eq_false_or_eq_true (state_is_done_or_completed name) with ht | hf
  · exfalso
    have hc : strContains name "Done" = true ∨ strContains name "Completed" = true := by
      simpa [state_is_done_or_completed, Bool.or_eq_true] using ht
    have ho : ('o' : Char) ∈ name.data := by
      rcases hc with hC | hC
      · exact strContains_subset hC 'o' (by decide)
      · exact strContains_subset hC 'o' (by decide)
    have hm : toAsciiLower 'o' ∈ name.data.map toAsciiLower :=
      List.mem_map_of_mem _ ho
    rw [hmap] at hm
    revert hm
    decide
  · exact hf

theorem mem_dedupEmit :
    ∀ (xs seen : List String) (y : String),
      y ∈ dedupEmit seen xs ↔ (y ∈ xs ∧ y ∉ seen) := by
  intro xs
  induction xs with
  | nil => intro seen y; simp [dedupEmit]
  | cons x xs ih =>
    intro seen y
    by_cases hx : x ∈ seen
    · simp only [dedupEmit, hx, if_true, List.mem_cons, ih]
      constructor
      · rintro ⟨h1, h2⟩; exact ⟨Or.inr h1, h2⟩
      · rintro ⟨rfl | h1, h2⟩
        · exact absurd hx h2
        · exact ⟨h1, h2⟩
    · simp only [dedupEmit, hx, if_false, List.mem_cons, ih]
      constructor
      · rintro (rfl | ⟨h1, h2⟩)
        · exact ⟨Or.inl rfl, hx⟩
        · exact ⟨Or.inr h1, fun hs => h2 (Or.inr hs)⟩
      · rintro ⟨h1 | h1, h2⟩
        · exact Or.inl h1
        · by_cases hyx : y = x
          · exact Or.inl hyx
          · exact Or.inr ⟨h1, fun hs => hs.elim hyx h2⟩

theorem nodup_dedupEmit :
    ∀ (xs seen : List String), (dedupEmit seen xs).Nodup := by
  intro xs
  induction xs with
  | nil => intro seen; simp [dedupEmit]
  | cons x xs ih =>
    intro seen
    by_cases hx : x ∈ seen
    · simpa [dedupEmit, hx] using ih seen
    · simp only [dedupEmit, hx, if_false]
      refine List.nodup_cons.mpr ⟨?_, ih (x :: seen)⟩
      intro hmem
      exact ((mem_dedupEmit xs (x :: seen) x).mp hmem).2 (List.mem_cons.mpr (Or.inl rfl))

theorem dedupEmit_sublist :
    ∀ (xs seen : List String), List.Sublist (dedupEmit seen xs) xs := by
  intro xs
  induction xs with
  | nil => intro seen; simp [dedupEmit]
  | cons x xs ih =>
    intro seen
    by_cases hx : x ∈ seen
    · simpa [dedupEmit, hx] using List.Sublist.cons x (ih seen)
    · simpa [dedupEmit, hx] using List.Sublist.cons₂ x (ih (x :: seen))

theorem mem_dedupSeen :
    ∀ (xs seen : List String) (y : String),
      y ∈ dedupSeen seen xs ↔ (y ∈ seen ∨ y ∈ xs) := by
  intro xs
  induction xs with
  | nil => intro seen y; simp [dedupSeen]
  | cons x xs ih =>
    intro seen y
    by_cases hx : x ∈ seen
    · simp only [dedupSeen, hx, if_true, ih, List.mem_cons]
      constructor
      · rintro (h | h)
        · exact Or.inl h
        · exact Or.inr (Or.inr h)
      · rintro (h | rfl | h)
        · exact Or.inl h
        · exact Or.inl hx
        · exact Or.inr h
    · simp only [dedupSeen, hx, if_false, ih, List.mem_cons]
      tauto

theorem dedupEmit_append :
    ∀ (xs ys seen : List String),
      dedupEmit seen (xs ++ ys) =
        dedupEmit seen xs ++ dedupEmit (dedupSeen seen xs) ys := by
  intro xs
  induction xs with
  | nil => intro ys seen; simp [dedupEmit, dedupSeen]
  | cons x xs ih =>
    intro ys seen
    by_cases hx : x ∈ seen <;>
      simp [dedupEmit, dedupSeen, hx, ih]

theorem emitNew_eq :
    ∀ (ms seen : List String),
      emitNew ms seen = (dedupEmit seen ms, dedupSeen seen ms) := by
  intro ms
  induction ms with
  | nil => intro seen; simp [emitNew, dedupEmit, dedupSeen]
  | cons m ms ih =>
    intro seen
    by_cases hm : m ∈ seen <;> simp [emitNew, dedupEmit, dedupSeen, hm, ih]

theorem parse_emit_loop_eq :
    ∀ (ms seen : List String),
      parse_emit_loop seen ms = dedupEmit seen (ms.map normalize_pr_match) := by
  intro ms
  induction ms with
  | nil => intro seen; simp [parse_emit_loop, dedupEmit]
  | cons m ms ih =>
    intro seen
    by_cases hm : normalize_pr_match m ∈ seen <;>
      simp [parse_emit_loop, dedupEmit, hm, ih]

theorem extract_tickets_run_eq (prText : String → String) :
    ∀ (lines seen : List String),
      extract_tickets_run (fun p => Except.ok (prText p)) lines seen =
        (Except.ok (), dedupEmit seen (extract_stream prText lines)) := by
  intro lines
  induction lines with
  | nil => intro seen; simp [extract_tickets_run, extract_stream, dedupEmit]
  | cons line rest ih =>
    intro seen
    by_cases hb : (strTrim line).data.isEmpty = true
    · simp [extract_tickets_run, extract_stream, hb, ih]
    · simp [extract_tickets_run, extract_stream, hb, ih, find_and_output_tickets,
        emitNew_eq, dedupEmit_append]

theorem all_flatMap_messages (msgs : List String) :
    (msgs.flatMap (fun m => m.data ++ ['\n'])).all isRustWhitespace =
      msgs.all (fun m => m.data.all isRustWhitespace) := by
  have hnl : isRustWhitespace '\n' = true := by decide
  induction msgs with
  | nil => rfl
  | cons m ms ih => simp [List.all_append, ih, hnl]

theorem ensure_no_graphql_errors_ok_iff (errs : List GraphQLError) :
    ensure_no_graphql_errors errs = Except.ok () ↔
      (graphql_error_messages errs).all
        (fun m => m.data.all isRustWhitespace) = true := by
  unfold ensure_no_graphql_errors
  rw [all_flatMap_messages]
  by_cases h : (graphql_error_messages errs).all
      (fun m => m.data.all isRustWhitespace) = true
  · simp [h]
  · simp [h]

theorem splitOnceChar_sound {c : Char} :
    ∀ (l a b : List Char),
      splitOnceChar c l = some (a, b) → l = a ++ c :: b ∧ c ∉ a := by
  intro l
  induction l with
  | nil => intro a b h; simp [splitOnceChar] at h
  | cons x xs ih =>
    intro a b h
    simp only [splitOnceChar] at h
    by_cases hx : x = c
    · rw [if_pos hx] at h
      obtain ⟨ha, hb⟩ : ([] : List Char) = a ∧ xs = b := by simpa using h
      subst ha; subst hb
      simp [hx]
    · rw [if_neg hx] at h
      cases hsp : splitOnceChar c xs with
      | none => simp [hsp] at h
      | some ab =>
        simp only [hsp] at h
        obtain ⟨ha, hb⟩ : x :: ab.1 = a ∧ ab.2 = b := by simpa using h
        obtain ⟨hl, hnc⟩ := ih ab.1 ab.2 (by rw [hsp])
        subst ha; subst hb
        constructor
        · simp [hl]
        · intro hmem
          rcases List.mem_cons.mp hmem with rfl | hmem
          · exact hx rfl
          · exact hnc hmem

theorem splitOnceChar_append {c : Char} :
    ∀ (a b : List Char), c ∉ a → splitOnceChar c (a ++ c :: b) = some (a, b) := by
  intro a
  induction a with
  | nil => intro b _; simp [splitOnceChar]
  | cons x xs ih =>
    intro b hna
    have hx : x ≠ c := by
      intro h
      exact hna (by rw [← h]; exact List.mem_cons_self x xs)
    have hrec := ih b (fun hm => hna (List.mem_cons_of_mem _ hm))
    simp [splitOnceChar, hx, hrec]

/-- C1: for every ticket processed by the ticket state engine, the update
decision is `shouldUpdate = !isCompleted && (updateAllStatuses || isPassing)`
with `isCompleted` a case-sensitive substring match of the state name for
`Done` or `Completed` and `isPassing` a case-insensitive equality with
`Passing` — observable as: (i) in dry-run the engine emits the display URL
exactly when that formula holds; (ii) a ticket in state `Passing` in any
case with `updateAllStatuses = false` is updated (the mutation is issued and
the URL emitted); (iii) a ticket in state `In Review` with
`updateAllStatuses = false` is skipped with no output and no further API
calls; (iv) the same ticket with `updateAllStatuses = true` is updated. -/
theorem C1_update_decision :
    (∀ (api : Api) (issueId org : String) (updateAllStatuses : Bool)
        (resp : IssueResponse),
        api.issue issueId = some resp → resp.errors = [] →
        resp.issueIsNull = false →
        (update_single_ticket api issueId org true updateAllStatuses).1 =
          (if specShouldUpdate resp.stateName updateAllStatuses then
            Except.ok (some (issue_url org issueId))
          else Except.ok none)) ∧
    (∀ (api : Api) (issueId org : String) (resp : IssueResponse)
        (wresp : StatesResponse) (mresp : MutationResponse) (stId : String),
        api.issue issueId = some resp → resp.errors = [] →
        resp.issueIsNull = false →
        eqIgnoreAsciiCase resp.stateName "Passing" = true →
        (resp.teamId == "null") = false → resp.teamId.data.isEmpty = false →
        api.states resp.teamId = some wresp → wresp.errors = [] →
        find_completed_state wresp = Except.ok stId →
        api.mutate issueId stId = some mresp → mresp.errors = [] →
        mresp.success = "true" →
        update_single_ticket api issueId org false false =
          (Except.ok (some (issue_url org issueId)),
           [ApiCall.getIssueDetails issueId,
            ApiCall.getWorkflowStates resp.teamId,
            ApiCall.updateIssueState issueId stId])) ∧
    (∀ (api : Api) (issueId org : String) (resp : IssueResponse),
        api.issue issueId = some resp → resp.errors = [] →
        resp.issueIsNull = false → resp.stateName = "In Review" →
        update_single_ticket api issueId org false false =
          (Except.ok none, [ApiCall.getIssueDetails issueId])) ∧
    (∀ (api : Api) (issueId org : String) (resp : IssueResponse)
        (wresp : StatesResponse) (mresp : MutationResponse) (stId : String),
        api.issue issueId = some resp → resp.errors = [] →
        resp.issueIsNull = false → resp.stateName = "In Review" →
        (resp.teamId == "null") = false → resp.teamId.data.isEmpty = false →
        api.states resp.teamId = some wresp → wresp.errors = [] →
        find_completed_state wresp = Except.ok stId →
        api.mutate issueId stId = some mresp → mresp.errors = [] →
        mresp.success = "true" →
        update_single_ticket api issueId org false true =
          (Except.ok (some (issue_url org issueId)),
           [ApiCall.getIssueDetails issueId,
            ApiCall.getWorkflowStates resp.teamId,
            ApiCall.updateIssueState issueId stId])) := by
  refine ⟨?_, ?_, ?_, ?_⟩
  · intro api issueId org updateAllStatuses resp h1 h2 h3
    simp only [update_single_ticket, h1, h2, h3, ensure_no_graphql_errors,
      graphql_error_messages, List.filterMap_nil, List.flatMap_nil,
      List.all_nil, if_true, Bool.false_eq_true, if_false, specShouldUpdate,
      state_is_done_or_completed, state_is_passing]
    split <;> rfl
  · intro api issueId org resp wresp mresp stId h1 h2 h3 hp ht1 ht2 h4 h5 h6 h7 h8 h9
    have hcomp : state_is_done_or_completed resp.stateName = false :=
      passing_not_completed hp
    have hpass : state_is_passing resp.stateName = true := hp
    simp only [update_single_ticket, h1, h2, h3, h4, h5, h6, h7, h8, h9,
      ensure_no_graphql_errors, graphql_error_messages, List.filterMap_nil,
      List.flatMap_nil, List.all_nil, if_true, Bool.false_eq_true, if_false,
      hcomp, hpass, ht1, ht2, Bool.not_false, Bool.false_or, Bool.true_and,
      Bool.or_false, Bool.not_true, Bool.false_and]
    simp
  · intro api issueId org resp h1 h2 h3 h4
    have hcomp : state_is_done_or_completed resp.stateName = false := by
      rw [h4]; decide
    have hpass : state_is_passing resp.stateName = false := by
      rw [h4]; decide
    simp only [update_single_ticket, h1, h2, h3, ensure_no_graphql_errors,
      graphql_error_messages, List.filterMap_nil, List.flatMap_nil,
      List.all_nil, if_true, Bool.false_eq_true, if_false, hcomp, hpass,
      Bool.not_false, Bool.false_or, Bool.true_and, Bool.or_false,
      Bool.not_true, Bool.false_and]
  · intro api issueId org resp wresp mresp stId h1 h2 h3 h4 ht1 ht2 h5 h6 h7 h8 h9 h10
    have hcomp : state_is_done_or_completed resp.stateName = false := by
      rw [h4]; decide
    simp only [update_single_ticket, h1, h2, h3, h5, h6, h7, h8, h9, h10,
      ensure_no_graphql_errors, graphql_error_messages, List.filterMap_nil,
      List.flatMap_nil, List.all_nil, if_true, Bool.false_eq_true, if_false,
      hcomp, ht1, ht2, Bool.not_false, Bool.true_or, Bool.true_and,
      Bool.not_true, Bool.false_and]
    simp

/-- Witness for C1 at concrete inputs: a `pAsSiNg` ticket with
`updateAllStatuses = false` is updated by the live engine, and an
`In Review` ticket is skipped with no output. -/
theorem C1_update_decision_witness :
    update_single_ticket apiMixedCase "ABC-1" "org" false false =
      (Except.ok (some (issue_url "org" "ABC-1")),
       [ApiCall.getIssueDetails "ABC-1", ApiCall.getWorkflowStates "team1",
        ApiCall.updateIssueState "ABC-1" "state-done"]) ∧
    update_single_ticket apiInReview "ABC-1" "org" false false =
      (Except.ok none, [ApiCall.getIssueDetails "ABC-1"]) := by
  constructor
  · exact C1_update_decision.2.1 apiMixedCase "ABC-1" "org" respMixedCase
      wrespGood mrespGood "state-done" rfl rfl rfl (by decide) (by decide)
      (by decide) rfl rfl rfl rfl rfl rfl
  · exact C1_update_decision.2.2.1 apiInReview "ABC-1" "org" respInReview
      rfl rfl rfl rfl

/-- C2: with `dryRun = true` the engine issues exactly the one read-only
issue lookup — never a workflow-state listing nor a mutation — under any
condition (any api behaviour, any flags), and it emits the display URL
exactly when `shouldUpdate` holds for the fetched state (emitting nothing
otherwise); any URL it returns is the ticket's display URL. -/
theorem C2_dry_run_purity :
    (∀ (api : Api) (issueId org : String) (updateAllStatuses : Bool),
        (update_single_ticket api issueId org true updateAllStatuses).2 =
          [ApiCall.getIssueDetails issueId]) ∧
    (∀ (api : Api) (issueId org : String) (updateAllStatuses : Bool)
        (resp : IssueResponse),
        api.issue issueId = some resp → resp.errors = [] →
        resp.issueIsNull = false →
        (update_single_ticket api issueId org true updateAllStatuses).1 =
          (if specShouldUpdate resp.stateName updateAllStatuses then
            Except.ok (some (issue_url org issueId))
          else Except.ok none)) ∧
    (∀ (api : Api) (issueId org u : String) (updateAllStatuses : Bool),
        (update_single_ticket api issueId org true updateAllStatuses).1 =
          Except.ok (some u) → u = issue_url org issueId) := by
  refine ⟨?_, ?_, ?_⟩
  · intro api issueId org updAll
    cases h : api.issue issueId
    case none => simp [update_single_ticket, h]
    case some resp =>
      cases he : ensure_no_graphql_errors resp.errors
      case error e => simp [update_single_ticket, h, he]
      case ok u =>
        cases u
        by_cases hn : resp.issueIsNull = true
        · simp [update_single_ticket, h, he, hn]
        · simp only [Bool.not_eq_true] at hn
          simp only [update_single_ticket, h, he, hn, Bool.false_eq_true,
            if_false, if_true]
          split <;> rfl
  · intro api issueId org updAll resp h1 h2 h3
    simp only [update_single_ticket, h1, h2, h3, ensure_no_graphql_errors,
      graphql_error_messages, List.filterMap_nil, List.flatMap_nil,
      List.all_nil, if_true, Bool.false_eq_true, if_false, specShouldUpdate,
      state_is_done_or_completed, state_is_passing]
    split <;> rfl
  · intro api issueId org u updAll h
    rcases h1 : api.issue issueId with _ | resp
    · simp [update_single_ticket, h1] at h
    · rcases he : ensure_no_graphql_errors resp.errors with e | u2
      · simp [update_single_ticket, h1, he] at h
      · cases u2
        by_cases hn : resp.issueIsNull = true
        · simp [update_single_ticket, h1, he, hn] at h
        · simp only [Bool.not_eq_true] at hn
          simp only [update_single_ticket, h1, he, hn, Bool.false_eq_true,
            if_false, if_true] at h
          revert h
          split
          · intro h
            simpa using h.symm
          · intro h
            simp at h

/-- Witness for C2 at concrete inputs: on a `Passing` ticket the dry-run
engine issues only the issue lookup, and its output is the display URL. -/
theorem C2_dry_run_purity_witness :
    (update_single_ticket apiPassing "ABC-1" "org" true false).2 =
      [ApiCall.getIssueDetails "ABC-1"] ∧
    (update_single_ticket apiPassing "ABC-1" "org" true false).1 =
      (if specShouldUpdate respPassing.stateName false then
        Except.ok (some (issue_url "org" "ABC-1"))
      else Except.ok none) := by
  constructor
  · exact C2_dry_run_purity.1 apiPassing "ABC-1" "org" false
  · exact C2_dry_run_purity.2.1 apiPassing "ABC-1" "org" false respPassing
      rfl rfl rfl

/-- C7: a ticket whose state name is `Done` or contains `Completed` is, in
live mode, reported as a success with its display URL while issuing no
workflow-state lookup and no mutation; in dry-run mode the same ticket
produces no output (and equally no further calls). -/
theorem C7_already_completed (api : Api) (issueId org : String)
    (updateAllStatuses : Bool) (resp : IssueResponse)
    (h1 : api.issue issueId = some resp) (h2 : resp.errors = [])
    (h3 : resp.issueIsNull = false)
    (h4 : resp.stateName = "Done" ∨ strContains resp.stateName "Completed" = true) :
    update_single_ticket api issueId org false updateAllStatuses =
      (Except.ok (some (issue_url org issueId)),
       [ApiCall.getIssueDetails issueId]) ∧
    update_single_ticket api issueId org true updateAllStatuses =
      (Except.ok none, [ApiCall.getIssueDetails issueId]) := by
  have hcomp : state_is_done_or_completed resp.stateName = true := by
    rcases h4 with h4 | h4
    · rw [state_is_done_or_completed, h4]; decide
    · simp [state_is_done_or_completed, h4]
  constructor <;>
    simp only [update_single_ticket, h1, h2, h3, ensure_no_graphql_errors,
      graphql_error_messages, List.filterMap_nil, List.flatMap_nil,
      List.all_nil, if_true, Bool.false_eq_true, if_false, hcomp,
      Bool.not_true, Bool.false_and]

/-- Witness for C7 at a concrete input: a ticket in state `Completed` emits
its URL in live mode with only the issue lookup issued, and nothing in
dry-run mode. -/
theorem C7_already_completed_witness :
    update_single_ticket apiCompleted "ABC-1" "org" false false =
      (Except.ok (some (issue_url "org" "ABC-1")),
       [ApiCall.getIssueDetails "ABC-1"]) ∧
    update_single_ticket apiCompleted "ABC-1" "org" true false =
      (Except.ok none, [ApiCall.getIssueDetails "ABC-1"]) :=
  C7_already_completed apiCompleted "ABC-1" "org" false respCompleted
    rfl rfl rfl (Or.inr (by decide))

/-- C3: with the configuration resolvable, all three stages spawned (and
their stdout handles captured), and all three waits returning exit statuses,
the orchestrator's result is success if and only if all three exit statuses
indicate success; in particular a failed parse-notes stage with the other
two succeeding yields the `Pipeline failed` error. -/
theorem C3_pipeline_aggregate (env : OrchEnv) (tag key org : String)
    (b1 b2 b3 : Bool)
    (h1 : env.releaseTag = some tag) (h2 : env.linearApiKey = some key)
    (h3 : env.linearOrg = some org) (h4 : env.exeOk = true)
    (h5 : ∀ s, env.spawnOk s = true) (h6 : ∀ s, env.stdoutOk s = true)
    (h7 : env.waitResult Stage.parseNotes = some b1)
    (h8 : env.waitResult Stage.extractTickets = some b2)
    (h9 : env.waitResult Stage.updateTickets = some b3) :
    ((orchestrator_run env).1 = Except.ok () ↔ (b1 && b2 && b3) = true) ∧
    (b1 = false → b2 = true → b3 = true →
      (orchestrator_run env).1 = Except.error "Pipeline failed") := by
  cases b1 <;> cases b2 <;> cases b3 <;>
    simp [orchestrator_run, h1, h2, h3, h4, h5, h6, h7, h8, h9]

/-- Witness for C3 at a concrete environment: when only parse-notes exits
non-zero the orchestrator fails, and it does not report success. -/
theorem C3_pipeline_aggregate_witness :
    (orchestrator_run envOrchParseFail).1 = Except.error "Pipeline failed" := by
  have h := C3_pipeline_aggregate envOrchParseFail "v1.0" "key" "org"
    false true true rfl rfl rfl rfl (fun _ => rfl) (fun _ => rfl)
    (by decide) (by decide) (by decide)
  exact h.2 rfl rfl rfl

/-- C9 (amended): in every orchestrator run in which all three stages were
spawned and each wait call itself returns an exit status, the waits are
performed in reverse spawn order — the ticket-updater first, then the
ticket-extractor, then the note-parser — and every stage that was started is
waited on before the orchestrator reports its result.  (As stated the claim
fails when a wait call itself errors: the orchestrator then returns without
waiting on the upstream stages; see the counterexample.) -/
theorem C9_wait_order_amended (env : OrchEnv) (tag key org : String)
    (b1 b2 b3 : Bool)
    (h1 : env.releaseTag = some tag) (h2 : env.linearApiKey = some key)
    (h3 : env.linearOrg = some org) (h4 : env.exeOk = true)
    (h5 : ∀ s, env.spawnOk s = true) (h6 : ∀ s, env.stdoutOk s = true)
    (h7 : env.waitResult Stage.parseNotes = some b1)
    (h8 : env.waitResult Stage.extractTickets = some b2)
    (h9 : env.waitResult Stage.updateTickets = some b3) :
    (orchestrator_run env).2 =
      [OrchEvent.spawned Stage.parseNotes,
       OrchEvent.spawned Stage.extractTickets,
       OrchEvent.spawned Stage.updateTickets,
       OrchEvent.waited Stage.updateTickets,
       OrchEvent.waited Stage.extractTickets,
       OrchEvent.waited Stage.parseNotes] := by
  simp only [orchestrator_run, h1, h2, h3, h4, h5, h6, h7, h8, h9,
    Bool.not_true, Bool.false_eq_true, if_false]
  split <;> rfl

/-- Witness for C9 (amended) at a concrete environment where every wait
returns a status. -/
theorem C9_wait_order_amended_witness :
    (orchestrator_run envOrchGood).2 =
      [OrchEvent.spawned Stage.parseNotes,
       OrchEvent.spawned Stage.extractTickets,
       OrchEvent.spawned Stage.updateTickets,
       OrchEvent.waited Stage.updateTickets,
       OrchEvent.waited Stage.extractTickets,
       OrchEvent.waited Stage.parseNotes] :=
  C9_wait_order_amended envOrchGood "v1.0" "key" "org" true true true
    rfl rfl rfl rfl (fun _ => rfl) (fun _ => rfl) rfl rfl rfl

/-- Counterexample to C9 as stated: in a run where all three stages were
spawned but the wait on update-tickets itself fails, the orchestrator
reports its result without waiting on the note-parser or the
ticket-extractor, although both were started. -/
theorem C9_wait_order_counterexample :
    orchestrator_run envOrchWaitFail =
      (Except.error "Failed to wait for update-tickets",
       [OrchEvent.spawned Stage.parseNotes,
        OrchEvent.spawned Stage.extractTickets,
        OrchEvent.spawned Stage.updateTickets]) ∧
    OrchEvent.spawned Stage.parseNotes ∈ (orchestrator_run envOrchWaitFail).2 ∧
    OrchEvent.waited Stage.parseNotes ∉ (orchestrator_run envOrchWaitFail).2 ∧
    OrchEvent.waited Stage.extractTickets ∉ (orchestrator_run envOrchWaitFail).2 :=
  ⟨rfl, by decide, by decide, by decide⟩

theorem parse_issue_id_of_empty (s : String) (h : s.data = []) :
    parse_issue_id s = Except.error "Empty ticket ID" := by
  have h2 : (strTrim s).data = [] := by
    simp only [strTrim, h, List.dropWhile_nil, List.reverse_nil]
  simp [parse_issue_id, h2]

/-- C4 (amended): for the ticket-updater a per-line failure stemming from a
malformed item (an invalid ticket ID) or from that ticket's remote
lookup/mutation is not fatal — the line is skipped after logging and
processing continues with the next line exactly as if the bad line were
absent; in the ticket-extractor, however, a failed per-PR remote lookup for
one line is fatal and aborts the stage invocation (see the
counterexample to the claim as stated). -/
theorem C4_item_error_isolation_amended :
    (∀ (api : Api) (org : String) (dryRun updateAllStatuses : Bool)
        (line : String) (rest : List String) (e : String),
        parse_issue_id (strTrim line) = Except.error e →
        update_tickets_run api org dryRun updateAllStatuses (line :: rest) =
          update_tickets_run api org dryRun updateAllStatuses rest) ∧
    (∀ (api : Api) (org issueId : String) (dryRun updateAllStatuses : Bool)
        (line : String) (rest : List String) (e : String),
        parse_issue_id (strTrim line) = Except.ok issueId →
        (update_single_ticket api issueId org dryRun updateAllStatuses).1 =
          Except.error e →
        update_tickets_run api org dryRun updateAllStatuses (line :: rest) =
          update_tickets_run api org dryRun updateAllStatuses rest) ∧
    (∀ (prText : String → Except String String) (line : String)
        (rest seen : List String) (e : String),
        (strTrim line).data.isEmpty = false →
        prText (strTrim line) = Except.error e →
        extract_tickets_run prText (line :: rest) seen =
          (Except.error e, [])) := by
  refine ⟨?_, ?_, ?_⟩
  · intro api org dryRun updAll line rest e he
    by_cases hb : (strTrim line).data.isEmpty = true
    · simp [update_tickets_run, hb]
    · simp only [Bool.not_eq_true] at hb
      simp [update_tickets_run, hb, he]
  · intro api org issueId dryRun updAll line rest e hv he
    have hb : (strTrim line).data.isEmpty = false := by
      rcases Bool.eq_false_or_eq_true ((strTrim line).data.isEmpty) with h | h
      · exfalso
        rw [parse_issue_id_of_empty (strTrim line) (by simpa using h)] at hv
        cases hv
      · exact h
    simp [update_tickets_run, hb, hv, he]
  · intro prText line rest seen e hb he
    simp [extract_tickets_run, hb, he]

/-- Witness for C4 (amended) at concrete inputs: an invalid ticket ID and a
ticket whose lookup transport fails are both skipped by the updater, which
then continues with the remaining lines. -/
theorem C4_item_error_isolation_amended_witness :
    update_tickets_run apiPassing "org" false false ["not-a-ticket", "ABC-1"] =
      update_tickets_run apiPassing "org" false false ["ABC-1"] ∧
    update_tickets_run apiTransportMix "org" false false ["ABC-1", "DEF-2"] =
      update_tickets_run apiTransportMix "org" false false ["DEF-2"] := by
  constructor
  · exact C4_item_error_isolation_amended.1 apiPassing "org" false false
      "not-a-ticket" ["ABC-1"] "Expected ticket ID like ABC-123" rfl
  · exact C4_item_error_isolation_amended.2.1 apiTransportMix "org" "ABC-1"
      false false "ABC-1" ["DEF-2"] "curl request failed" rfl rfl

/-- Counterexample to C4 as stated: in the ticket-extractor, the failing
lookup of PR 5 aborts the whole stage — PR 6 on the next line is never
processed and nothing is emitted, although PR 6 alone would have yielded the
ticket `AAA-1`. -/
theorem C4_counterexample :
    prTextC4 "5" = Except.error "Failed to get PR 5" ∧
    extract_tickets_run prTextC4 ["5", "6"] [] =
      (Except.error "Failed to get PR 5", []) ∧
    extract_tickets_run prTextC4 ["6"] [] = (Except.ok (), ["AAA-1"]) :=
  ⟨rfl, rfl, rfl⟩

/-- C5 (amended): in the ticket-extractor an infrastructure failure of the
per-PR collaborator invocation is fatal and the whole stage stops with that
error; in the ticket-updater, by contrast, a remote-API transport failure
while processing one ticket is caught and the line skipped like an item
error — processing continues with the next line (only input-source I/O
failures stop that stage; see the counterexample to the claim as stated). -/
theorem C5_infra_fatality_amended :
    (∀ (prText : String → Except String String) (line : String)
        (rest seen : List String) (e : String),
        (strTrim line).data.isEmpty = false →
        prText (strTrim line) = Except.error e →
        (extract_tickets_run prText (line :: rest) seen).1 =
          Except.error e) ∧
    (∀ (api : Api) (org issueId : String) (dryRun updateAllStatuses : Bool)
        (line : String) (rest : List String),
        parse_issue_id (strTrim line) = Except.ok issueId →
        api.issue issueId = none →
        update_tickets_run api org dryRun updateAllStatuses (line :: rest) =
          update_tickets_run api org dryRun updateAllStatuses rest) := by
  constructor
  · intro prText line rest seen e hb he
    simp [extract_tickets_run, hb, he]
  · intro api org issueId dryRun updAll line rest hv hissue
    have hb : (strTrim line).data.isEmpty = false := by
      rcases Bool.eq_false_or_eq_true ((strTrim line).data.isEmpty) with h | h
      · exfalso
        rw [parse_issue_id_of_empty (strTrim line) (by simpa using h)] at hv
        cases hv
      · exact h
    have he : (update_single_ticket api issueId org dryRun updAll).1 =
        Except.error "curl request failed" := by
      simp [update_single_ticket, hissue]
    simp [update_tickets_run, hb, hv, he]

/-- Witness for C5 (amended) at concrete inputs: the extractor stage fails
when the PR lookup collaborator fails, and the updater skips a ticket whose
API transport fails. -/
theorem C5_infra_fatality_amended_witness :
    (extract_tickets_run prTextC4 ["5", "6"] []).1 =
      Except.error "Failed to get PR 5" ∧
    update_tickets_run apiTransportMix "org" true false ["ABC-1", "DEF-2"] =
      update_tickets_run apiTransportMix "org" true false ["DEF-2"] := by
  constructor
  · exact C5_infra_fatality_amended.1 prTextC4 "5" ["6"] []
      "Failed to get PR 5" rfl rfl
  · exact C5_infra_fatality_amended.2 apiTransportMix "org" "ABC-1" true false
      "ABC-1" ["DEF-2"] rfl rfl

/-- Counterexample to C5 as stated: the updater's API transport fails
outright for ticket `ABC-1` (the remote API cannot be reached for that
call), yet the stage does not stop — it continues and successfully emits the
URL of the next ticket `DEF-2`. -/
theorem C5_counterexample :
    apiTransportMix.issue "ABC-1" = none ∧
    update_tickets_run apiTransportMix "org" false false ["ABC-1", "DEF-2"] =
      ["https://linear.app/org/issue/DEF-2"] :=
  ⟨rfl, rfl⟩

/-- C6 (amended): for every API response received by the engine (issue
lookup, workflow-state listing, mutation), a transport-successful response is
accepted by the error check iff every message present in its embedded error
list is whitespace-only; consequently a response carrying an error with
non-whitespace message content is treated as a failure for that ticket at
each of the three sites, never as success — but error entries whose messages
are absent or whitespace-only are not detected (see the counterexample to
the claim as stated). -/
theorem C6_graphql_errors_amended :
    (∀ (errs : List GraphQLError),
        ensure_no_graphql_errors errs = Except.ok () ↔
          ∀ m ∈ graphql_error_messages errs,
            m.data.all isRustWhitespace = true) ∧
    (∀ (api : Api) (issueId org : String) (dryRun updateAllStatuses : Bool)
        (resp : IssueResponse) (em : String),
        api.issue issueId = some resp →
        ensure_no_graphql_errors resp.errors = Except.error em →
        (update_single_ticket api issueId org dryRun updateAllStatuses).1 =
          Except.error em) ∧
    (∀ (api : Api) (issueId org : String) (updateAllStatuses : Bool)
        (resp : IssueResponse) (wresp : StatesResponse) (em : String),
        api.issue issueId = some resp → resp.errors = [] →
        resp.issueIsNull = false →
        state_is_done_or_completed resp.stateName = false →
        (updateAllStatuses || state_is_passing resp.stateName) = true →
        (resp.teamId == "null") = false → resp.teamId.data.isEmpty = false →
        api.states resp.teamId = some wresp →
        ensure_no_graphql_errors wresp.errors = Except.error em →
        (update_single_ticket api issueId org false updateAllStatuses).1 =
          Except.error em) ∧
    (∀ (api : Api) (issueId org : String) (updateAllStatuses : Bool)
        (resp : IssueResponse) (wresp : StatesResponse)
        (mresp : MutationResponse) (stId em : String),
        api.issue issueId = some resp → resp.errors = [] →
        resp.issueIsNull = false →
        state_is_done_or_completed resp.stateName = false →
        (updateAllStatuses || state_is_passing resp.stateName) = true →
        (resp.teamId == "null") = false → resp.teamId.data.isEmpty = false →
        api.states resp.teamId = some wresp → wresp.errors = [] →
        find_completed_state wresp = Except.ok stId →
        api.mutate issueId stId = some mresp → mresp.success = "true" →
        ensure_no_graphql_errors mresp.errors = Except.error em →
        (update_single_ticket api issueId org false updateAllStatuses).1 =
          Except.error em) := by
  refine ⟨?_, ?_, ?_, ?_⟩
  · intro errs
    rw [ensure_no_graphql_errors_ok_iff, List.all_eq_true]
  · intro api issueId org dryRun updAll resp em h1 he
    simp [update_single_ticket, h1, he]
  · intro api issueId org updAll resp wresp em h1 h2 h3 hcomp hsu ht1 ht2 h4 hew
    have hok : ensure_no_graphql_errors resp.errors = Except.ok () := by
      rw [h2]; rfl
    simp only [update_single_ticket, h1, hok, h3, hcomp, hsu, ht1, ht2, h4,
      hew, Bool.false_eq_true, if_false, Bool.not_false, Bool.true_and,
      Bool.not_true, Bool.false_and, Bool.or_self, if_true]
  · intro api issueId org updAll resp wresp mresp stId em h1 h2 h3 hcomp hsu
      ht1 ht2 h4 h5 h6 h7 h9 hem
    have hok : ensure_no_graphql_errors resp.errors = Except.ok () := by
      rw [h2]; rfl
    have hokw : ensure_no_graphql_errors wresp.errors = Except.ok () := by
      rw [h5]; rfl
    simp only [update_single_ticket, h1, hok, h3, hcomp, hsu, ht1, ht2, h4,
      hokw, h6, h7, h9, hem, Bool.false_eq_true, if_false, Bool.not_false,
      Bool.true_and, Bool.not_true, Bool.false_and, Bool.or_self, if_true]
    simp

/-- Witness for C6 (amended) at a concrete input: an issue-lookup response
whose error list carries the message `boom` makes the engine fail for that
ticket. -/
theorem C6_graphql_errors_amended_witness :
    (update_single_ticket apiBoomErr "ABC-1" "org" false false).1 =
      Except.error "Linear API returned errors" :=
  C6_graphql_errors_amended.2.1 apiBoomErr "ABC-1" "org" false false
    respBoomErr "Linear API returned errors" rfl rfl

/-- Counterexample to C6 as stated: a transport-successful issue-lookup
response with a non-empty embedded error list (one error whose message is
the empty string) is treated as success — the engine proceeds and updates
the ticket. -/
theorem C6_counterexample :
    respSilentErr.errors ≠ [] ∧
    apiSilentErr.issue "ABC-1" = some respSilentErr ∧
    (update_single_ticket apiSilentErr "ABC-1" "org" false false).1 =
      Except.ok (some "https://linear.app/org/issue/ABC-1") :=
  ⟨by decide, rfl, rfl⟩

/-- C8: each emitting stage deduplicates within one invocation and preserves
discovery order: the note-parser's output has no duplicates, contains exactly
the normalised grep matches of its input, is a subsequence of the
discovery-ordered match stream (never sorted or batched), and any identifier
occurring in the stream (N ≥ 1 times) is emitted exactly once; the
ticket-extractor enjoys the same three properties over the concatenated
ticket-id stream of its (successfully fetched) PRs; and the note-parser
normalises `#123` and a pull-request URL ending in `/pull/123` to the same
identifier `123`, so the two forms are emitted at most once between them. -/
theorem C8_dedup_order :
    (∀ input : String, (parse_notes_run input).Nodup) ∧
    (∀ (input : String) (x : String),
        x ∈ parse_notes_run input ↔
          x ∈ (pr_matches input).map normalize_pr_match) ∧
    (∀ input : String,
        List.Sublist (parse_notes_run input)
          ((pr_matches input).map normalize_pr_match)) ∧
    (∀ (input : String) (x : String),
        x ∈ (pr_matches input).map normalize_pr_match →
          (parse_notes_run input).count x = 1) ∧
    (∀ (prText : String → String) (lines : List String),
        (extract_tickets_run (fun p => Except.ok (prText p)) lines []).2.Nodup ∧
        (∀ x : String,
          x ∈ (extract_tickets_run (fun p => Except.ok (prText p)) lines []).2 ↔
            x ∈ extract_stream prText lines) ∧
        List.Sublist
          (extract_tickets_run (fun p => Except.ok (prText p)) lines []).2
          (extract_stream prText lines) ∧
        (∀ x : String, x ∈ extract_stream prText lines →
          (extract_tickets_run (fun p => Except.ok (prText p)) lines []).2.count
            x = 1)) ∧
    (normalize_pr_match "#123" = "123" ∧
      normalize_pr_match "https://github.com/o/r/pull/123" = "123") := by
  have hmem : ∀ (s : List String) (x : String),
      x ∈ dedupEmit [] s ↔ x ∈ s := by
    intro s x
    rw [mem_dedupEmit]
    simp
  refine ⟨?_, ?_, ?_, ?_, ?_, by decide, by decide⟩
  · intro input
    rw [parse_notes_run, parse_emit_loop_eq]
    exact nodup_dedupEmit _ _
  · intro input x
    rw [parse_notes_run, parse_emit_loop_eq]
    exact hmem _ x
  · intro input
    rw [parse_notes_run, parse_emit_loop_eq]
    exact dedupEmit_sublist _ _
  · intro input x hx
    rw [parse_notes_run, parse_emit_loop_eq]
    exact List.count_eq_one_of_mem (nodup_dedupEmit _ _) ((hmem _ x).mpr hx)
  · intro prText lines
    rw [extract_tickets_run_eq prText lines []]
    exact ⟨nodup_dedupEmit _ _, fun x => hmem _ x, dedupEmit_sublist _ _,
      fun x hx =>
        List.count_eq_one_of_mem (nodup_dedupEmit _ _) ((hmem _ x).mpr hx)⟩

/-- Witness for C8 at concrete inputs: the note-parser emits `5` then `7`
for the repeated-input stream `#5 #7`, then `#5` again, and the two
reference forms of PR 123 are emitted once between them. -/
theorem C8_dedup_order_witness :
    (parse_notes_run "#5 x #7\n#5").Nodup ∧
    parse_notes_run "#5 x #7\n#5" = ["5", "7"] ∧
    parse_notes_run "#123 and https://github.com/o/r/pull/123" = ["123"] :=
  ⟨C8_dedup_order.1 "#5 x #7\n#5", by decide, by decide⟩

/-- C10: the ticket-extractor matches ticket ids as unanchored substrings
with no word-boundary requirement — text containing `ABCD-123` yields the
ticket `BCD-123` — whereas the ticket-updater accepts an input line exactly
when the whole trimmed line is three ASCII uppercase letters, a hyphen and
one or more digits (and then uses the trimmed line itself as the id). -/
theorem C10_pattern_shape :
    ticket_matches "released ABCD-123 today" = ["BCD-123"] ∧
    (∀ s : String, is_valid_ticket_id s = true ↔
      ∃ p d : List Char, s.data = p ++ '-' :: d ∧ p.length = 3 ∧
        (∀ c ∈ p, isAsciiUpper c = true) ∧ d ≠ [] ∧
        (∀ c ∈ d, isAsciiDigit c = true)) ∧
    (∀ s : String,
      ((∃ t, parse_issue_id s = Except.ok t) ↔
        is_valid_ticket_id (strTrim s) = true) ∧
      (∀ t, parse_issue_id s = Except.ok t → t = strTrim s)) := by
  refine ⟨by decide, ?_, ?_⟩
  · intro s
    constructor
    · intro h
      cases hsp : splitOnceChar '-' s.data with
      | none => rw [is_valid_ticket_id, hsp] at h; cases h
      | some pd =>
        rw [is_valid_ticket_id, hsp] at h
        simp only [Bool.and_eq_true, beq_iff_eq, List.all_eq_true,
          Bool.not_eq_true', List.isEmpty_eq_false] at h
        obtain ⟨⟨⟨hlen, hup⟩, hne⟩, hdig⟩ := h
        obtain ⟨hdata, _⟩ := splitOnceChar_sound s.data pd.1 pd.2 hsp
        exact ⟨pd.1, pd.2, hdata, hlen, hup, hne, hdig⟩
    · rintro ⟨p, d, hdata, hlen, hup, hne, hdig⟩
      have hnm : ('-' : Char) ∉ p := by
        intro hm
        have := hup '-' hm
        simp [isAsciiUpper] at this
      rw [is_valid_ticket_id, hdata, splitOnceChar_append p d hnm]
      simp only [Bool.and_eq_true, beq_iff_eq, List.all_eq_true,
        Bool.not_eq_true', List.isEmpty_eq_false]
      exact ⟨⟨⟨hlen, hup⟩, hne⟩, hdig⟩
  · intro s
    by_cases hb : (strTrim s).data.isEmpty = true
    · have hd : (strTrim s).data = [] := by simpa using hb
      have hps : parse_issue_id s = Except.error "Empty ticket ID" := by
        simp [parse_issue_id, hb]
      have hv : is_valid_ticket_id (strTrim s) = false := by
        rw [is_valid_ticket_id, hd]
        rfl
      constructor
      · constructor
        · rintro ⟨t, ht⟩
          rw [hps] at ht; cases ht
        · intro h
          rw [hv] at h; cases h
      · intro t ht
        rw [hps] at ht; cases ht
    · simp only [Bool.not_eq_true] at hb
      cases hv : is_valid_ticket_id (strTrim s) with
      | false =>
        have hps : parse_issue_id s =
            Except.error "Expected ticket ID like ABC-123" := by
          simp [parse_issue_id, hb, hv]
        constructor
        · constructor
          · rintro ⟨t, ht⟩
            rw [hps] at ht; cases ht
          · intro h; cases h
        · intro t ht
          rw [hps] at ht; cases ht
      | true =>
        have hps : parse_issue_id s = Except.ok (strTrim s) := by
          simp [parse_issue_id, hb, hv]
        constructor
        · exact ⟨fun _ => rfl, fun _ => ⟨strTrim s, hps⟩⟩
        · intro t ht
          rw [hps] at ht
          exact (Except.ok.inj ht).symm

/-- Witness for C10 at concrete inputs: `ABC-123` is a valid updater input
(derived through the shape characterisation), while the embedded `BCD-123`
is what the extractor finds in text containing `ABCD-123`. -/
theorem C10_pattern_shape_witness :
    is_valid_ticket_id "ABC-123" = true ∧
    (∃ t, parse_issue_id "ABC-123" = Except.ok t) := by
  constructor
  · exact (C10_pattern_shape.2.1 "ABC-123").mpr
      ⟨['A', 'B', 'C'], ['1', '2', '3'], rfl, rfl,
        by decide, by decide, by decide⟩
  · refine ((C10_pattern_shape.2.2 "ABC-123").1).mpr ?_
    exact (C10_pattern_shape.2.1 "ABC-123").mpr
      ⟨['A', 'B', 'C'], ['1', '2', '3'], by decide, rfl,
        by decide, by decide, by decide⟩
